import Mathlib

/-
  Verification development for the AkrolimbSocketGen web viewer
  (webviewer/src/main.jsx): the coordinate-frame reconciliation and
  annotation pipeline.

  Modelling conventions:
  - JS numbers are embedded as rationals (ℚ); the arithmetic used by the
    viewer core is +, -, *, / on ordinary values, which agrees with ℚ.
  - A JS value that may be null/undefined/NaN is embedded as an Option.
  - The truthiness test `x || d` on numbers (used by the source for
    defaults) is embedded by jsOrQ / jsOrOpt: 0 and NaN (none) are falsy.
  - three.js Object3D transforms compose as world(p) = R (s • p) + t,
    where s is the uniform scalar scale, R the rotation and t the
    position; the source only ever uses rotation.x = π/2, a signed
    coordinate permutation, so bounding boxes of rotated meshes are
    computed exactly.
-/

namespace Akrolimb

/-- A 3D vector with rational components, standing for THREE.Vector3. -/
structure Vec3 where
  x : ℚ
  y : ℚ
  z : ℚ
deriving DecidableEq, Repr

def addV (a b : Vec3) : Vec3 := ⟨a.x + b.x, a.y + b.y, a.z + b.z⟩

def subV (a b : Vec3) : Vec3 := ⟨a.x - b.x, a.y - b.y, a.z - b.z⟩

def negV (a : Vec3) : Vec3 := ⟨-a.x, -a.y, -a.z⟩

def smulV (s : ℚ) (a : Vec3) : Vec3 := ⟨s * a.x, s * a.y, s * a.z⟩

/-- Squared Euclidean norm; v.length() < r is embedded as normSq v < r^2
for r ≥ 0, avoiding square roots. -/
def normSq (a : Vec3) : ℚ := a.x * a.x + a.y * a.y + a.z * a.z

/-- Componentwise midpoint, as computed by Box3.getCenter:
(min + max) * 0.5. -/
def midV (a b : Vec3) : Vec3 := smulV (1/2) (addV a b)

/-- JS `x || d` on a number: 0 is falsy and replaced by the default. -/
def jsOrQ (x d : ℚ) : ℚ := if x = 0 then d else x

/-- JS `x || d` where x may also be undefined/NaN (none): none and 0 are
falsy and replaced by the default. Models `parseFloat(s) || d` and
`json.scale_applied || 1.0` in main.jsx. -/
def jsOrOpt (o : Option ℚ) (d : ℚ) : ℚ :=
  match o with
  | none => d
  | some v => if v = 0 then d else v

/-- Truthiness of a possibly-absent JS number: present and nonzero. -/
def jsTruthyOptQ (o : Option ℚ) : Bool :=
  match o with
  | some v => v != 0
  | none => false

/-- The helper `rotX90 = (v) => new THREE.Vector3(v.x, v.z, -v.y)` from
SocketModel (main.jsx line 105, repeated at line 132): the Z-up → Y-up
permutation applied to millimeter offset vectors. -/
def rotX90 (v : Vec3) : Vec3 := ⟨v.x, v.z, -v.y⟩

/-- Inverse of rotX90: (x, y, z) ↦ (x, -z, y). The claimed display → source
permutation; it does not occur in the source's mark-export path. -/
def invRotX90 (v : Vec3) : Vec3 := ⟨v.x, -v.z, v.y⟩

/-- Action of `m.rotation.x = Math.PI / 2` (main.jsx line 92) on a point:
three.js rotates mesh points by +90° about X, (x, y, z) ↦ (x, -z, y). -/
def meshRotX90 (v : Vec3) : Vec3 := ⟨v.x, -v.z, v.y⟩

/-- The mesh rotation actually applied to the socket: rotX90 about X when
zUp, identity otherwise. -/
def applyMeshRot (zUp : Bool) (v : Vec3) : Vec3 :=
  if zUp then meshRotX90 v else v

/-- The `zUp ? rotX90(dn) : dn` conditional used for offset vectors. -/
def rotIf (zUp : Bool) (v : Vec3) : Vec3 :=
  if zUp then rotX90 v else v

/-- Mark kinds: the three values of the markType select. -/
inductive MarkType where
  | pad
  | relief
  | trim
deriving DecidableEq, Repr

/-- A stored mark, as appended by onPlaceMark (main.jsx 260-268):
{ type, vpos (display-space position), radius_mm, amount_mm }. -/
structure Mark where
  type : MarkType
  vpos : Vec3
  radius_mm : ℚ
  amount_mm : ℚ
deriving DecidableEq, Repr

/-- The limb normalization record `t = { scale, center }` produced by the
Model loader (main.jsx line 60). The translation applied to the scene is
the negation of center. -/
structure Norm where
  scale : ℚ
  center : Vec3
deriving DecidableEq, Repr

/-- The normalization computation of the Model loader (main.jsx 49-61):
size = bbox max - bbox min, maxDim = max of the three extents,
scale = 1.0 / (maxDim || 1), center = bbox midpoint. -/
def modelNormalize (bmin bmax : Vec3) : Norm :=
  let size := subV bmax bmin
  let maxDim := max (max size.x size.y) size.z
  let scale := 1 / jsOrQ maxDim 1
  let center := midV bmin bmax
  ⟨scale, center⟩

/-- The position assigned to the limb scene by `s.position.sub(center)`
(main.jsx line 57), starting from position 0. -/
def limbPositionAfterLoad (bmin bmax : Vec3) : Vec3 :=
  negV (modelNormalize bmin bmax).center

/-- The mark-export conversion `toMm` inside callMakeSocket (main.jsx
221-224): native = p * (1.0 / unitScale) + unitCenter, then
native * serverScale. It takes no axis-convention input. -/
def toMm (v : Vec3) (unitScale : ℚ) (unitCenter : Vec3) (serverScale : ℚ) : Vec3 :=
  smulV serverScale (addV (smulV (1 / unitScale) v) unitCenter)

/-- A server response as read by callMakeSocket: scale_applied,
socket_trimmed_url, limb_center_mm, delta_mm (all optional JSON fields). -/
structure Response where
  scale_applied : Option ℚ
  socket_trimmed_url : Option String
  limb_center_mm : Option Vec3
  delta_mm : Option Vec3
deriving DecidableEq, Repr

/-- One entry of the marks_json payload built in callMakeSocket 226-231. -/
structure ExportMark where
  type : MarkType
  center_mm : Vec3
  radius_mm : ℚ
  amount_mm : ℚ
deriving DecidableEq, Repr

/-- The marks_json payload construction (main.jsx 216-231):
unitScale = limbTransform?.scale ?? 1.0, unitCenter = limbTransform?.center
?? (0,0,0), serverScale = apiResult?.scale_applied ?? 1.0 (nullish
coalescing: a present 0 is kept), then each mark's vpos through toMm,
preserving order. -/
def exportPayload (marks : List Mark) (limbTransform : Option Norm)
    (apiResult : Option Response) : List ExportMark :=
  let unitScale := match limbTransform with
    | some t => t.scale
    | none => 1
  let unitCenter := match limbTransform with
    | some t => t.center
    | none => ⟨0, 0, 0⟩
  let serverScale := (apiResult.bind (fun r => r.scale_applied)).getD 1
  marks.map (fun m => ⟨m.type, toMm m.vpos unitScale unitCenter serverScale,
    m.radius_mm, m.amount_mm⟩)

/-- A residual-snap step (main.jsx 121-127): if the post-transform
bounding-box centroid is within distance 0.5 of the origin
(length < 0.5, embedded as normSq < 1/4), subtract it from the position;
otherwise leave the position unchanged. -/
def residualSnap (pos postCenter : Vec3) : Vec3 :=
  if normSq postCenter < 1/4 then subV pos postCenter else pos

/-- World-space bounding-box centroid of the socket mesh after the scale,
rotation and position set so far: R (s • cNative) + pos, where cNative is
the geometry's native bbox midpoint. Exact for the signed-permutation
rotation used (the world AABB midpoint of a rotated/scaled AABB is the
image of its midpoint). Models Box3.setFromObject + getCenter at
main.jsx 122-123. -/
def postCenterOf (zUp : Bool) (s : ℚ) (pos cNative : Vec3) : Vec3 :=
  addV (applyMeshRot zUp (smulV s cNative)) pos

/-- The transform prop handed to SocketModel (built at main.jsx 250 and
315): possibly-absent serverScale / unitScale / unitCenter / limbCenterMm
/ deltaMm plus the extraOffsetMm nudge. -/
structure SocketTransformIn where
  serverScale : Option ℚ
  unitScale : Option ℚ
  unitCenter : Option Vec3
  limbCenterMm : Option Vec3
  deltaMm : Option Vec3
  extraOffsetMm : Option Vec3
deriving DecidableEq, Repr

/-- The resulting placement of the socket mesh: uniform scale, position,
and whether the +90°-about-X rotation was applied. -/
structure Placement where
  scale : ℚ
  position : Vec3
  rotXQuarter : Bool
deriving DecidableEq, Repr

/-- The branch condition `hasServerScale || hasUnit` of SocketModel
(main.jsx 93-96): serverScale is a present number (0 included), or
unitScale is truthy (present, nonzero) and unitCenter present. -/
def hasAlign (t : SocketTransformIn) : Bool :=
  t.serverScale.isSome || (jsTruthyOptQ t.unitScale && t.unitCenter.isSome)

/-- The aligned branch of SocketModel (main.jsx 96-136), with cNative the
socket geometry's native bbox midpoint:
serverScale = transform.serverScale || 1.0 (1 when absent);
invServer = serverScale ? 1/serverScale : 1;
scale multiplied by invServer when serverScale ≠ 1;
position -= rotIf zUp (invServer • deltaMm) if deltaMm present, else the
same with limbCenterMm if present; position -= unitCenter; scale *=
unitScale; residual snap on the recomputed world bbox centroid; finally
position += unitScale • (invServer • rotIf zUp extraOffsetMm). -/
def alignPlace (t : SocketTransformIn) (zUp : Bool) (cNative : Vec3) : Placement :=
  let hasServerScale := t.serverScale.isSome
  let hasUnitB := jsTruthyOptQ t.unitScale && t.unitCenter.isSome
  let serverScale := if hasServerScale then jsOrOpt t.serverScale 1 else 1
  let invServer := if serverScale = 0 then 1 else 1 / serverScale
  let unitCenter := if hasUnitB then t.unitCenter.getD ⟨0, 0, 0⟩ else ⟨0, 0, 0⟩
  let unitScale := if hasUnitB then t.unitScale.getD 1 else 1
  let scale1 : ℚ := if serverScale = 1 then 1 else invServer
  let pos2 : Vec3 := match t.deltaMm with
    | some d => negV (rotIf zUp (smulV invServer d))
    | none => match t.limbCenterMm with
      | some c => negV (rotIf zUp (smulV invServer c))
      | none => ⟨0, 0, 0⟩
  let pos3 := subV pos2 unitCenter
  let scale2 := scale1 * unitScale
  let pos4 := residualSnap pos3 (postCenterOf zUp scale2 pos3 cNative)
  let pos5 := match t.extraOffsetMm with
    | some off => addV pos4 (smulV unitScale (smulV invServer (rotIf zUp off)))
    | none => pos4
  ⟨scale2, pos5, zUp⟩

/-- The fallback branch of SocketModel (main.jsx 137-146): normalize the
socket by its own bounding box, computed on the already-rotated mesh
(scale 1, position 0): scale = 1.0 / (maxDim || 1) of the world AABB,
position = -(world AABB center). -/
def fallbackPlace (zUp : Bool) (bmin bmax : Vec3) : Placement :=
  let wa := applyMeshRot zUp bmin
  let wb := applyMeshRot zUp bmax
  let wmin : Vec3 := ⟨min wa.x wb.x, min wa.y wb.y, min wa.z wb.z⟩
  let wmax : Vec3 := ⟨max wa.x wb.x, max wa.y wb.y, max wa.z wb.z⟩
  let size := subV wmax wmin
  let maxDim := max (max size.x size.y) size.z
  let scale := 1 / jsOrQ maxDim 1
  let center := midV wmin wmax
  ⟨scale, negV center, zUp⟩

/-- Socket placement, SocketModel lines 92-146: the aligned branch when a
server scale or a unit normalization is available, the own-bbox fallback
otherwise. bmin/bmax is the socket mesh's native bounding box. -/
def socketPlace (t : SocketTransformIn) (zUp : Bool) (bmin bmax : Vec3) : Placement :=
  if hasAlign t then alignPlace t zUp (midV bmin bmax)
  else fallbackPlace zUp bmin bmax

/-- The socketTransform record stored by setSocketTransform (main.jsx 250). -/
structure SocketTransformSet where
  serverScale : ℚ
  unitScale : ℚ
  unitCenter : Vec3
  limbCenterMm : Option Vec3
  deltaMm : Option Vec3
deriving DecidableEq, Repr

/-- The Viewer component state touched by the core (main.jsx 158-183);
rendering-only handles (limbObject, scene, urls of overlays) are omitted. -/
structure ViewerState where
  busy : Bool
  apiResult : Option Response
  socketUrl : Option String
  socketTransform : Option SocketTransformSet
  limbTransform : Option Norm
  marks : List Mark
deriving DecidableEq, Repr

/-- Initial Viewer state (main.jsx 163-180). -/
def viewerInit : ViewerState :=
  ⟨false, none, none, none, none, []⟩

/-- State effects at the start of callMakeSocket (main.jsx 194-196):
setBusy(true), setApiResult(null), setSocketUrl(null). -/
def reqStart (s : ViewerState) : ViewerState :=
  { s with busy := true, apiResult := none, socketUrl := none }

/-- State effects when a /api/make-socket response arrives (main.jsx
236-256): setApiResult(json); setSocketUrl when the response carries a
socket url; when json.scale_applied is truthy or a limbTransform exists,
setSocketTransform from the response and the current limbTransform
(serverScale = json.scale_applied || 1.0, unitScale =
limbTransform?.scale ?? 1.0, unitCenter likewise); finally
setBusy(false). The handler consults no request identifier. -/
def respApply (s : ViewerState) (json : Response) : ViewerState :=
  { busy := false
    apiResult := some json
    socketUrl := match json.socket_trimmed_url with
      | some u => some u
      | none => s.socketUrl
    socketTransform :=
      if jsTruthyOptQ json.scale_applied || s.limbTransform.isSome then
        some { serverScale := jsOrOpt json.scale_applied 1
               unitScale := match s.limbTransform with
                 | some t => t.scale
                 | none => 1
               unitCenter := match s.limbTransform with
                 | some t => t.center
                 | none => ⟨0, 0, 0⟩
               limbCenterMm := json.limb_center_mm
               deltaMm := json.delta_mm }
      else s.socketTransform
    limbTransform := s.limbTransform
    marks := s.marks }

/-- State effects of a successful limb load (Model loader callbacks,
main.jsx 46-63 with the wiring at 314): onTransform = setLimbTransform
with the freshly computed normalization. No other Viewer state is
written; in particular marks is not. -/
def loadLimbApply (s : ViewerState) (bmin bmax : Vec3) : ViewerState :=
  { s with limbTransform := some (modelNormalize bmin bmax) }

/-- The append performed by onPlaceMark's setMarks (main.jsx 267):
prev => [...prev, m]. -/
def pushMark (prev : List Mark) (m : Mark) : List Mark := prev ++ [m]

/-- popMark (main.jsx 278): prev => prev.slice(0, -1). -/
def popMark (prev : List Mark) : List Mark := prev.dropLast

/-- clearMarks (main.jsx 277): setMarks([]). -/
def clearMarks (prev : List Mark) : List Mark :=
  let _ := prev
  []

/-- onPlaceMark (main.jsx 260-268): builds a mark from the current
markType, the picked point, and radius_mm = parseFloat(markRadius) || 10,
amount_mm = parseFloat(markAmount) || 2 (a parse result of NaN is
embedded as none), then appends it. -/
def onPlaceMark (ty : MarkType) (radiusParsed amountParsed : Option ℚ)
    (p : Vec3) (marks : List Mark) : List Mark :=
  pushMark marks ⟨ty, p, jsOrOpt radiusParsed 10, jsOrOpt amountParsed 2⟩

/-- Conversion error kind named by the spec (§7). -/
inductive ConvError where
  | degenerateTransform
deriving DecidableEq, Repr

/-- The source's mark conversion with its error behavior made explicit:
the code (main.jsx 221-224) contains no guard and JS arithmetic never
throws (division by zero yields Infinity), so the conversion always
returns a value; the ℚ value at unitScale = 0 merely stands in for JS's
non-finite result, and no input reaches an error. -/
def toMmExceptional (v : Vec3) (unitScale : ℚ) (unitCenter : Vec3)
    (serverScale : ℚ) : Except ConvError Vec3 :=
  Except.ok (toMm v unitScale unitCenter serverScale)

/-- Modelled from the spec: the guarded pointToMillimeters of §4.2, which
fails with DegenerateTransform when norm.scale is 0 (non-finiteness has no
ℚ counterpart). Stated for comparison with the source's unguarded toMm. -/
def pointToMillimetersChecked (v : Vec3) (unitScale : ℚ) (unitCenter : Vec3)
    (serverScale : ℚ) : Except ConvError Vec3 :=
  if unitScale = 0 then Except.error ConvError.degenerateTransform
  else Except.ok (toMm v unitScale unitCenter serverScale)

/-- Follows the words of claim C1 / spec §4.2: un-normalize, then, when the
axis flag is set, apply the inverse permutation (x, y, z) ↦ (x, -z, y),
then multiply by the server scale. Stated for comparison with the
source's toMm, which takes no axis flag. -/
def pointToMillimetersClaimed (v : Vec3) (unitScale : ℚ) (unitCenter : Vec3)
    (serverScale : ℚ) (axisConv : Bool) : Vec3 :=
  let native := addV (smulV (1 / unitScale) v) unitCenter
  smulV serverScale (if axisConv then invRotX90 native else native)

/-- Modelled from the spec: pointToDisplay of §4.2 — no standalone
display-direction point conversion exists in src (SocketModel applies the
equivalent steps to whole-mesh offsets only): divide by the server scale,
apply (x, y, z) ↦ (x, z, -y) when the axis flag is set, add the
normalization translation (the negated center), multiply by the
normalization scale. -/
def pointToDisplay (pMm : Vec3) (unitScale : ℚ) (unitCenter : Vec3)
    (serverScale : ℚ) (axisConv : Bool) : Vec3 :=
  let q := smulV (1 / serverScale) pMm
  let q2 := if axisConv then rotX90 q else q
  smulV unitScale (addV q2 (negV unitCenter))

/-- C6: in the residual-snap step of socket placement, a post-transform
bounding-box centroid whose distance from the origin is below the fixed
threshold (length < 0.5, i.e. squared length < 1/4) is subtracted — the
recomputed centroid is then exactly 0 — in particular a residual of
magnitude 1/100 is corrected; a centroid at or above the threshold is
left unchanged — in particular a residual of magnitude 10 is untouched. -/
theorem residualSnap_threshold :
    (∀ pos c : Vec3, normSq c < 1/4 → residualSnap pos c = subV pos c) ∧
    (∀ (zUp : Bool) (s : ℚ) (pos cN : Vec3),
      normSq (postCenterOf zUp s pos cN) < 1/4 →
      postCenterOf zUp s (residualSnap pos (postCenterOf zUp s pos cN)) cN
        = ⟨0, 0, 0⟩) ∧
    (∀ pos c : Vec3, 1/4 ≤ normSq c → residualSnap pos c = pos) ∧
    (∀ pos : Vec3, residualSnap pos ⟨1/100, 0, 0⟩ = subV pos ⟨1/100, 0, 0⟩) ∧
    (∀ pos : Vec3, residualSnap pos ⟨10, 0, 0⟩ = pos) := by
  refine ⟨fun pos c h => if_pos h, ?_, fun pos c h => if_neg (not_lt.mpr h),
    fun pos => if_pos (by norm_num [normSq]), fun pos => if_neg (by norm_num [normSq])⟩
  intro zUp s pos cN h
  have hsnap : residualSnap pos (postCenterOf zUp s pos cN)
      = subV pos (postCenterOf zUp s pos cN) := if_pos h
  rw [hsnap]
  cases zUp <;>
    simp only [postCenterOf, applyMeshRot, Bool.false_eq_true, if_false,
      if_true, meshRotX90, smulV, addV, subV, Vec3.mk.injEq] <;>
    refine ⟨by ring, by ring, by ring⟩

/-- Witness for residualSnap_threshold at concrete inputs. -/
theorem residualSnap_threshold_witness :
    residualSnap ⟨0, 0, 0⟩ ⟨1/10, 0, 0⟩ = subV ⟨0, 0, 0⟩ ⟨1/10, 0, 0⟩ ∧
    residualSnap ⟨0, 0, 0⟩ ⟨3, 0, 0⟩ = ⟨0, 0, 0⟩ ∧
    postCenterOf true 1
      (residualSnap ⟨0, 0, 0⟩ (postCenterOf true 1 ⟨0, 0, 0⟩ ⟨1/10, 0, 0⟩))
      ⟨1/10, 0, 0⟩ = ⟨0, 0, 0⟩ :=
  ⟨residualSnap_threshold.1 ⟨0, 0, 0⟩ ⟨1/10, 0, 0⟩ (by norm_num [normSq]),
   residualSnap_threshold.2.2.1 ⟨0, 0, 0⟩ ⟨3, 0, 0⟩ (by norm_num [normSq]),
   residualSnap_threshold.2.1 true 1 ⟨0, 0, 0⟩ ⟨1/10, 0, 0⟩
     (by norm_num [normSq, postCenterOf, applyMeshRot, meshRotX90, smulV, addV])⟩

/-- C7: the normalization computation returns scale = 1 / max extent,
except scale = 1 when the maximum extent is 0 (fallback, not an error),
and the translation applied is the negated bounding-box midpoint; it is a
pure function of the bounding box. -/
theorem modelNormalize_contract (bmin bmax : Vec3) :
    (max (max (bmax.x - bmin.x) (bmax.y - bmin.y)) (bmax.z - bmin.z) ≠ 0 →
      (modelNormalize bmin bmax).scale =
        1 / max (max (bmax.x - bmin.x) (bmax.y - bmin.y)) (bmax.z - bmin.z)) ∧
    (max (max (bmax.x - bmin.x) (bmax.y - bmin.y)) (bmax.z - bmin.z) = 0 →
      (modelNormalize bmin bmax).scale = 1) ∧
    (modelNormalize bmin bmax).center = midV bmin bmax ∧
    limbPositionAfterLoad bmin bmax = negV (midV bmin bmax) := by
  refine ⟨fun h => ?_, fun h => ?_, rfl, rfl⟩
  · simp only [modelNormalize, jsOrQ, subV]
    rw [if_neg h]
  · simp only [modelNormalize, jsOrQ, subV]
    rw [if_pos h]
    norm_num

/-- Witness for modelNormalize_contract: the spec's concrete scenario,
bbox [(-50,-50,-50), (50,50,150)], scale 1/200 = 0.005. -/
theorem modelNormalize_contract_witness :
    (modelNormalize ⟨-50, -50, -50⟩ ⟨50, 50, 150⟩).scale =
      1 / max (max ((50 : ℚ) - (-50)) ((50 : ℚ) - (-50))) ((150 : ℚ) - (-50)) :=
  (modelNormalize_contract ⟨-50, -50, -50⟩ ⟨50, 50, 150⟩).1 (by norm_num)

/-- C8: appending marks A, B, C to an empty sequence then removeLast
yields [A, B]; removeLast on the empty sequence is a no-op; clear on any
sequence yields the empty sequence. -/
theorem markSequence_ops :
    (∀ A B C : Mark, popMark (pushMark (pushMark (pushMark [] A) B) C) = [A, B]) ∧
    popMark ([] : List Mark) = [] ∧
    (∀ ms : List Mark, clearMarks ms = []) :=
  ⟨fun _ _ _ => rfl, rfl, fun _ => rfl⟩

/-- C10: a mark-append stores radius_mm = 10 when the radius input parses
to NaN or 0 and amount_mm = 2 when the amount input parses to NaN or 0;
any nonzero parsed value — negative values included — is stored as-is, so
the store can contain a mark with radius_mm < 0. -/
theorem onPlaceMark_defaults :
    (∀ (ty : MarkType) (a : Option ℚ) (p : Vec3) (ms : List Mark),
      onPlaceMark ty none a p ms = ms ++ [⟨ty, p, 10, jsOrOpt a 2⟩]) ∧
    (∀ (ty : MarkType) (a : Option ℚ) (p : Vec3) (ms : List Mark),
      onPlaceMark ty (some 0) a p ms = ms ++ [⟨ty, p, 10, jsOrOpt a 2⟩]) ∧
    (∀ (ty : MarkType) (r : Option ℚ) (p : Vec3) (ms : List Mark),
      onPlaceMark ty r none p ms = ms ++ [⟨ty, p, jsOrOpt r 10, 2⟩]) ∧
    (∀ (ty : MarkType) (r : Option ℚ) (p : Vec3) (ms : List Mark),
      onPlaceMark ty r (some 0) p ms = ms ++ [⟨ty, p, jsOrOpt r 10, 2⟩]) ∧
    (∀ (ty : MarkType) (a : Option ℚ) (p : Vec3) (ms : List Mark) (v : ℚ),
      v ≠ 0 → onPlaceMark ty (some v) a p ms = ms ++ [⟨ty, p, v, jsOrOpt a 2⟩]) ∧
    (∃ m, m ∈ onPlaceMark MarkType.pad (some (-5)) (some 2) ⟨0, 0, 0⟩ [] ∧
      m.radius_mm < 0) := by
  refine ⟨fun ty a p ms => rfl, fun ty a p ms => ?_, fun ty r p ms => rfl,
    fun ty r p ms => ?_, fun ty a p ms v h => ?_,
    ⟨⟨MarkType.pad, ⟨0, 0, 0⟩, -5, 2⟩, by decide, by decide⟩⟩
  · simp [onPlaceMark, pushMark, jsOrOpt]
  · simp [onPlaceMark, pushMark, jsOrOpt]
  · simp [onPlaceMark, pushMark, jsOrOpt, h]

/-- Witness for onPlaceMark_defaults: a negative parsed radius is stored
as-is. -/
theorem onPlaceMark_defaults_witness :
    onPlaceMark MarkType.pad (some (-7)) (some 2) ⟨0, 0, 0⟩ [] =
      [] ++ [⟨MarkType.pad, ⟨0, 0, 0⟩, -7, jsOrOpt (some 2) 2⟩] :=
  onPlaceMark_defaults.2.2.2.2.1 MarkType.pad (some 2) ⟨0, 0, 0⟩ [] (-7)
    (by norm_num)

/-- C1 counterexample: the source's mark export applies no axis
permutation. A mark at display point (0, 1, 0) under the identity
normalization and server scale 1 exports center_mm = (0, 1, 0), while the
claimed conversion with the axis flag set yields the permuted (0, 0, 1). -/
theorem exportPayload_no_permutation_cex :
    (exportPayload [⟨MarkType.pad, ⟨0, 1, 0⟩, 10, 2⟩]
        (some ⟨1, ⟨0, 0, 0⟩⟩) (some ⟨some 1, none, none, none⟩)).map
      (fun e => e.center_mm) = [⟨0, 1, 0⟩] ∧
    pointToMillimetersClaimed ⟨0, 1, 0⟩ 1 ⟨0, 0, 0⟩ 1 true = ⟨0, 0, 1⟩ ∧
    (⟨0, 1, 0⟩ : Vec3) ≠ ⟨0, 0, 1⟩ :=
  ⟨by norm_num [exportPayload, toMm, smulV, addV, Vec3.mk.injEq],
   by norm_num [pointToMillimetersClaimed, invRotX90, smulV, addV, Vec3.mk.injEq],
   by norm_num [Vec3.mk.injEq]⟩

/-- C1 amended: the mark-export conversion applies no basis permutation
for any state of the axis-convention flag: it agrees pointwise with the
claimed pipeline taken with the flag off,
centerMm = ((p / unitScale) + unitCenter) * serverScale. -/
theorem toMm_no_permutation (v : Vec3) (s : ℚ) (c : Vec3) (S : ℚ) :
    toMm v s c S = pointToMillimetersClaimed v s c S false := rfl

/-- A one-element mark store used by concrete counterexamples. -/
def markZero : Mark := ⟨MarkType.pad, ⟨0, 0, 0⟩, 10, 2⟩

/-- C2 counterexample: loading a new limb does not clear the mark
sequence: from a state holding one mark, the state after a limb load
still holds it. -/
theorem loadLimb_not_clearing_cex :
    (loadLimbApply { viewerInit with marks := [markZero] }
      ⟨0, 0, 0⟩ ⟨1, 1, 1⟩).marks = [markZero] ∧
    [markZero] ≠ ([] : List Mark) :=
  ⟨rfl, by decide⟩

/-- C2 amended: a limb load stores the freshly computed normalization and
leaves the mark sequence exactly as it was. -/
theorem loadLimb_preserves_marks (s : ViewerState) (bmin bmax : Vec3) :
    (loadLimbApply s bmin bmax).marks = s.marks ∧
    (loadLimbApply s bmin bmax).limbTransform
      = some (modelNormalize bmin bmax) :=
  ⟨rfl, rfl⟩

/-- C3 counterexample: with the axis flag set the round trip fails: the
source's export of display point (0, 1, 0) under identity transforms is
(0, 1, 0), and converting that millimeter point back to display with the
flag set yields (0, 0, -1) ≠ (0, 1, 0). -/
theorem roundTrip_axisConv_cex :
    pointToDisplay (toMm ⟨0, 1, 0⟩ 1 ⟨0, 0, 0⟩ 1) 1 ⟨0, 0, 0⟩ 1 true
      ≠ ⟨0, 1, 0⟩ := by
  intro h
  have h2 := congrArg Vec3.y h
  norm_num [pointToDisplay, toMm, rotX90, smulV, addV, negV] at h2

/-- C3 amended: the round trip is an exact inverse pair when the
axis-convention flag is false (the source's export applies no
permutation), and the spec's own permuted conversion composed with the
display conversion round-trips for either flag value; with the flag set,
source export composed with display conversion does not (see the
counterexample). -/
theorem roundTrip_exact (p : Vec3) (s : ℚ) (c : Vec3) (S : ℚ)
    (hs : s ≠ 0) (hS : S ≠ 0) :
    pointToDisplay (toMm p s c S) s c S false = p ∧
    ∀ b : Bool, pointToDisplay (pointToMillimetersClaimed p s c S b) s c S b
      = p := by
  cases p with
  | mk px py pz =>
  cases c with
  | mk cx cy cz =>
  constructor
  · simp only [pointToDisplay, toMm, smulV, addV, negV, rotX90,
      Bool.false_eq_true, if_false, Vec3.mk.injEq]
    refine ⟨?_, ?_, ?_⟩ <;> field_simp
  · intro b
    cases b <;>
      simp only [pointToDisplay, pointToMillimetersClaimed, invRotX90, rotX90,
        smulV, addV, negV, Bool.false_eq_true, if_false, if_true,
        Vec3.mk.injEq] <;>
      refine ⟨?_, ?_, ?_⟩ <;> field_simp

/-- Witness for roundTrip_exact at concrete nonzero scales. -/
theorem roundTrip_exact_witness :
    pointToDisplay (toMm ⟨1, 2, 3⟩ 2 ⟨4, 5, 6⟩ 3) 2 ⟨4, 5, 6⟩ 3 false
      = ⟨1, 2, 3⟩ ∧
    ∀ b : Bool,
      pointToDisplay (pointToMillimetersClaimed ⟨1, 2, 3⟩ 2 ⟨4, 5, 6⟩ 3 b)
        2 ⟨4, 5, 6⟩ 3 b = ⟨1, 2, 3⟩ :=
  roundTrip_exact ⟨1, 2, 3⟩ 2 ⟨4, 5, 6⟩ 3 (by norm_num) (by norm_num)

/-- A transform prop with no server data, as handed to SocketModel when
socketTransform is null: only the nudge field is present. -/
def tNoAlign : SocketTransformIn :=
  ⟨none, none, none, none, none, some ⟨0, 0, 0⟩⟩

/-- A transform prop taking the aligned branch. -/
def tAlign : SocketTransformIn :=
  ⟨some 2, some (1/2), some ⟨0, 0, 0⟩, none, none, none⟩

/-- C4 counterexample: with no server transform available the fallback
branch normalizes the socket by its own native bounding box, so two
sockets differing only in their native bounding box are placed
differently. -/
theorem socketPlace_uses_bbox_cex :
    socketPlace tNoAlign false ⟨0, 0, 0⟩ ⟨1, 1, 1⟩ ≠
      socketPlace tNoAlign false ⟨0, 0, 0⟩ ⟨2, 2, 2⟩ := by
  have hb : hasAlign tNoAlign = false := rfl
  intro h
  have h2 := congrArg Placement.scale h
  simp only [socketPlace, hb, Bool.false_eq_true, if_false, fallbackPlace,
    applyMeshRot, subV, midV, smulV, addV, negV] at h2
  norm_num [jsOrQ, min_def, max_def] at h2

/-- C4 amended: in the aligned branch (server scale or unit normalization
present) the placement reads the native bounding box only through its
midpoint, which feeds the residual snap: sockets with equal bbox
midpoints get identical placements. In the fallback branch the socket is
normalized by its own bounding box (see the counterexample). -/
theorem socketPlace_align_midpoint_only (t : SocketTransformIn) (zUp : Bool)
    (bmin bmax bmin2 bmax2 : Vec3) (h : hasAlign t = true)
    (hmid : midV bmin bmax = midV bmin2 bmax2) :
    socketPlace t zUp bmin bmax = socketPlace t zUp bmin2 bmax2 := by
  simp only [socketPlace, h, if_true, hmid]

/-- Witness for socketPlace_align_midpoint_only: two different boxes with
midpoint (1, 1, 1). -/
theorem socketPlace_align_midpoint_only_witness :
    socketPlace tAlign true ⟨0, 0, 0⟩ ⟨2, 2, 2⟩ =
      socketPlace tAlign true ⟨1, 1, 1⟩ ⟨1, 1, 1⟩ :=
  socketPlace_align_midpoint_only tAlign true ⟨0, 0, 0⟩ ⟨2, 2, 2⟩
    ⟨1, 1, 1⟩ ⟨1, 1, 1⟩ rfl (by norm_num [midV, smulV, addV, Vec3.mk.injEq])

/-- C5 counterexample: at norm.scale = 0 the source conversion still
returns a value (JS division by zero yields Infinity, never an
exception), while the claim demands a DegenerateTransform failure: the
guarded spec conversion errors there, the source conversion does not. -/
theorem toMm_no_degenerate_guard_cex :
    toMmExceptional ⟨1, 1, 1⟩ 0 ⟨0, 0, 0⟩ 1 ≠
      Except.error ConvError.degenerateTransform ∧
    pointToMillimetersChecked ⟨1, 1, 1⟩ 0 ⟨0, 0, 0⟩ 1 =
      Except.error ConvError.degenerateTransform :=
  ⟨fun h => Except.noConfusion h, by simp [pointToMillimetersChecked]⟩

/-- C5 amended: the source conversion contains no degeneracy guard: it
never reports an error for any input, a zero normalization scale
included (in JS such an input flows through as non-finite coordinates
rather than a reported error). -/
theorem toMm_never_fails (v : Vec3) (s : ℚ) (c : Vec3) (S : ℚ)
    (e : ConvError) : toMmExceptional v s c S ≠ Except.error e :=
  fun h => Except.noConfusion h

/-- Concrete response of an older request. -/
def respA : Response := ⟨some 2, none, none, none⟩

/-- Concrete response of a newer request. -/
def respB : Response := ⟨some 3, none, none, none⟩

/-- C9 counterexample: two requests are issued back to back; the newer
request's response respB arrives first, the older request's response
respA arrives last. The handler applies every response unconditionally,
so the final state holds respA: the stale response overwrote the state
produced by the newer request instead of being discarded. -/
theorem staleResponse_overwrites_cex :
    (respApply (respApply (reqStart (reqStart viewerInit)) respB)
      respA).apiResult = some respA ∧
    (respApply (respApply (reqStart (reqStart viewerInit)) respB)
      respA).socketTransform = some ⟨2, 1, ⟨0, 0, 0⟩, none, none⟩ ∧
    respA ≠ respB :=
  ⟨rfl, by decide, by decide⟩

/-- C9 amended: the response handler consults no request identifier:
every arriving response is applied to the state unconditionally, so
responses take effect in arrival order and the last-arriving response
wins, even when it answers an older request. -/
theorem respApply_last_writer_wins (s : ViewerState) (j : Response) :
    (respApply s j).apiResult = some j ∧ (respApply s j).busy = false :=
  ⟨rfl, rfl⟩

end Akrolimb
